import Mathlib

/-
Verification development for the Finance_Ai repository.

Shallow embedding of the deterministic transaction pipeline:
  * tools/transaction_categorizer.py   (TransactionCategorizer)
  * tools/financial_metrics_engine.py  (FinancialMetricsEngine)
  * tools/validation_engine.py         (ValidationEngine)
  * backend/services/analysis_service.py (AnalysisService transaction parsing)

Conventions of the embedding:
  * Python floats are modelled as exact rationals (ℚ); `round(x, 2)` is
    modelled as rounding to the nearest multiple of 1/100.
  * Python dicts used as transaction records are modelled as a structure
    whose fields are the keys the code reads; `dict.get` with a default is
    the plain field access (the pipeline always populates these keys).
  * String operations (`lower`, `strip`, substring `in`) are implemented on
    the character list of the string, matching CPython behaviour on the
    ASCII data the pipeline handles.
-/

/- Batteries marks the `Rat` field operations irreducible, which blocks
`decide` on concrete rational computations; restore the default
reducibility for this development so concrete inputs evaluate. -/
attribute [local semireducible] Rat.add Rat.mul Rat.inv Rat.sub Rat.ofScientific

/-- A categorized transaction record, as consumed by the metrics engine and
produced by the categorizer: keys `date`, `description`, `amount`, `type`
(`"debit"` or `"credit"`) and `category`. -/
structure Txn where
  date : String
  description : String
  amount : ℚ
  type : String
  category : String
deriving DecidableEq

/-- ASCII lower-casing of one character (`str.lower` on the ASCII inputs the
pipeline handles). -/
def lowerC (c : Char) : Char :=
  if 65 ≤ c.toNat && c.toNat ≤ 90 then Char.ofNat (c.toNat + 32) else c

/-- `str.lower` on a whole string. -/
def lowerStr (s : String) : String := ⟨s.data.map lowerC⟩

/-- `needle` occurs at the start of the list. -/
def isPfx : List Char → List Char → Bool
  | [], _ => true
  | _ :: _, [] => false
  | a :: as, b :: bs => a == b && isPfx as bs

/-- `needle` occurs somewhere in the list (Python `needle in hay`). -/
def subIn (needle : List Char) : List Char → Bool
  | [] => needle.isEmpty
  | c :: t => isPfx needle (c :: t) || subIn needle t

/-- Python substring test `needle in hay` on strings. -/
def strHasSub (hay needle : String) : Bool := subIn needle.data hay.data

/-- `TransactionCategorizer._matches_keywords`: true when any keyword is a
case-insensitive substring of the text. -/
def matchesKeywords (text : String) (keywords : List String) : Bool :=
  let t := lowerStr text
  keywords.any (fun k => strHasSub t (lowerStr k))

/-- Keyword list of the `Income` category (`CATEGORIES['Income']['keywords']`;
the table also records `type: credit` for this entry, which no code path
reads beyond the explicit credit test in `categorize_transaction`). -/
def incomeKeywords : List String :=
  ["salary", "payroll", "wage", "income", "payment received",
   "direct deposit", "transfer from", "deposit", "refund",
   "bonus", "commission", "reimbursement", "dividend", "interest earned"]

/-- `TransactionCategorizer.CATEGORIES` in declaration order (Python dicts
preserve insertion order): category name paired with its keyword list. -/
def CATEGORIES : List (String × List String) :=
  [("Income", incomeKeywords),
   ("Housing",
    ["rent", "mortgage", "property tax", "hoa", "homeowners association",
     "property management", "lease", "apartment", "condo fee"]),
   ("Utilities",
    ["electric", "electricity", "gas", "water", "sewer", "trash",
     "internet", "wifi", "phone", "mobile", "cable", "utility",
     "verizon", "att", "tmobile", "comcast", "xfinity"]),
   ("Food & Dining",
    ["restaurant", "cafe", "coffee", "starbucks", "dunkin",
     "mcdonald", "burger", "pizza", "chipotle", "subway",
     "food", "grocery", "supermarket", "whole foods", "trader joe",
     "safeway", "kroger", "walmart", "target", "costco",
     "uber eats", "doordash", "grubhub", "postmates", "dining"]),
   ("Transportation",
    ["gas", "fuel", "shell", "chevron", "exxon", "bp", "76",
     "uber", "lyft", "taxi", "parking", "toll", "metro",
     "transit", "bus", "train", "subway", "car payment",
     "auto insurance", "dmv", "vehicle", "repair", "mechanic"]),
   ("Entertainment",
    ["movie", "theater", "cinema", "spotify", "apple music",
     "entertainment", "game", "steam", "playstation", "xbox",
     "concert", "event", "ticket", "amusement", "recreation"]),
   ("Shopping",
    ["amazon", "ebay", "walmart", "target", "best buy",
     "home depot", "lowes", "ikea", "clothing", "apparel",
     "shoes", "electronics", "retail", "store", "shop",
     "mall", "macys", "nordstrom", "gap", "old navy"]),
   ("Healthcare",
    ["pharmacy", "cvs", "walgreens", "rite aid", "medical",
     "doctor", "hospital", "dental", "dentist", "health",
     "insurance", "clinic", "prescription", "medicine"]),
   ("Subscriptions",
    ["netflix", "hulu", "disney", "amazon prime", "youtube premium",
     "subscription", "membership", "annual fee", "monthly fee",
     "spotify", "apple tv", "hbo", "paramount", "peacock",
     "gym", "fitness", "planet fitness", "24 hour fitness"]),
   ("Insurance",
    ["insurance", "geico", "state farm", "allstate", "progressive",
     "policy", "premium", "health insurance", "life insurance"]),
   ("Debt Payments",
    ["credit card payment", "loan payment", "student loan",
     "payment to", "chase payment", "bank of america payment",
     "capital one payment", "discover payment", "amex payment"]),
   ("Savings & Investments",
    ["transfer to savings", "investment", "brokerage", "fidelity",
     "vanguard", "charles schwab", "etrade", "robinhood",
     "401k", "ira", "retirement", "savings account"]),
   ("Personal Care",
    ["salon", "haircut", "spa", "beauty", "cosmetics",
     "hygiene", "personal care", "barber"]),
   ("Education",
    ["tuition", "school", "university", "college", "course",
     "textbook", "education", "learning", "udemy", "coursera"]),
   ("Pets",
    ["pet", "vet", "veterinary", "petsmart", "petco",
     "dog", "cat", "animal"]),
   ("Travel",
    ["airline", "flight", "hotel", "airbnb", "booking",
     "travel", "vacation", "resort", "marriott", "hilton",
     "delta", "united", "american airlines", "southwest"]),
   ("Fees & Charges",
    ["fee", "charge", "atm", "overdraft", "late fee",
     "service charge", "maintenance fee", "penalty"]),
   ("Cash & ATM",
    ["atm withdrawal", "cash", "withdrawal"]),
   ("Taxes",
    ["irs", "tax", "federal tax", "state tax", "tax payment"])]

/-- The `for category, config in self.CATEGORIES.items()` loop of
`categorize_transaction`: first non-Income category whose keywords match the
(lower-cased) description, in table-declaration order. -/
def findCategory (description : String) : List (String × List String) → Option String
  | [] => none
  | (name, kws) :: rest =>
    if name == "Income" then findCategory description rest
    else if matchesKeywords description kws then some name
    else findCategory description rest

/-- `TransactionCategorizer.categorize_transaction`: credit transactions with
positive amount matching an Income keyword are `Income`; otherwise the first
matching non-Income category wins; the default is `Other` for debits and
`Income` for credits. -/
def categorize_transaction (t : Txn) : String :=
  let description := lowerStr t.description
  if t.type == "credit" && decide (0 < t.amount)
      && matchesKeywords description incomeKeywords then "Income"
  else
    match findCategory description CATEGORIES with
    | some c => c
    | none => if t.type == "debit" then "Other" else "Income"

/-- `fixed_categories` set of `classify_expense_type`. -/
def fixed_categories : List String :=
  ["Housing", "Insurance", "Debt Payments", "Subscriptions", "Utilities"]

/-- `discretionary_categories` set of `classify_expense_type`. -/
def discretionary_categories : List String :=
  ["Entertainment", "Shopping", "Dining", "Travel", "Personal Care", "Food & Dining"]

/-- `TransactionCategorizer.classify_expense_type`. -/
def classify_expense_type (category : String) : String :=
  if category ∈ fixed_categories then "Fixed"
  else if category ∈ discretionary_categories then "Discretionary"
  else "Variable"

/-! ## Rounding

Python's `round(x, 2)` rounds to the nearest multiple of `1/100`, resolving
exact ties to the even hundredth (round half to even).  We model the float
value exactly as a rational. -/

/-- Floor of a rational, written so the kernel can evaluate it
(`Int` division rounds toward negative infinity for a positive divisor). -/
def ratFloor (q : ℚ) : ℤ := q.num / q.den

/-- Round a rational to the nearest integer, ties to even (Python `round`). -/
def rndHalfEven (x : ℚ) : ℤ :=
  if x - ratFloor x < 1/2 then ratFloor x
  else if 1/2 < x - ratFloor x then ratFloor x + 1
  else if ratFloor x % 2 = 0 then ratFloor x else ratFloor x + 1

/-- Python `round(x, 2)`. -/
def round2 (q : ℚ) : ℚ := (rndHalfEven (q * 100) : ℚ) / 100

/-! ## FinancialMetricsEngine -/

/-- The recurring expense test `txn.get('type') == 'debit' or
txn.get('amount', 0) < 0` (a transaction counted as an expense). -/
def isExpense (t : Txn) : Bool := t.type == "debit" || decide (t.amount < 0)

/-- Contribution of one transaction to `_calculate_total_income`. -/
def incomeContrib (t : Txn) : ℚ :=
  if t.category == "Income" || (t.type == "credit" && decide (0 < t.amount))
  then |t.amount| else 0

/-- `FinancialMetricsEngine._calculate_total_income`. -/
def calc_total_income (ts : List Txn) : ℚ := (ts.map incomeContrib).sum

/-- Contribution of one transaction to `_calculate_total_expenses`: the
categories Income, Savings & Investments and Debt Payments are excluded. -/
def expenseContrib (t : Txn) : ℚ :=
  if t.category == "Income" || t.category == "Savings & Investments"
      || t.category == "Debt Payments" then 0
  else if isExpense t then |t.amount| else 0

/-- `FinancialMetricsEngine._calculate_total_expenses`. -/
def calc_total_expenses (ts : List Txn) : ℚ := (ts.map expenseContrib).sum

/-- The `breakdown` dict of `_calculate_fixed_variable`. -/
structure FVD where
  fixed : ℚ
  varia : ℚ
  discretionary : ℚ
deriving DecidableEq

/-- Amount a transaction adds to the given bucket of the
`_calculate_fixed_variable` breakdown (`breakdown[expense_type] += amount`):
only Income is excluded here, unlike `_calculate_total_expenses`. -/
def fvAmount (t : Txn) (bucket : String) : ℚ :=
  if t.category == "Income" then 0
  else if isExpense t then
    (if classify_expense_type t.category == bucket then |t.amount| else 0)
  else 0

/-- `FinancialMetricsEngine._calculate_fixed_variable`. -/
def calc_fixed_variable (ts : List Txn) : FVD :=
  { fixed := (ts.map (fun t => fvAmount t "Fixed")).sum
    varia := (ts.map (fun t => fvAmount t "Variable")).sum
    discretionary := (ts.map (fun t => fvAmount t "Discretionary")).sum }

/-- `FinancialMetricsEngine._calculate_savings_rate`. -/
def calc_savings_rate (income expenses : ℚ) : ℚ :=
  if income ≤ 0 then 0 else (income - expenses) / income * 100

/-- `FinancialMetricsEngine._calculate_discretionary_ratio`. -/
def calc_discretionary_ratio (fv : FVD) : ℚ :=
  if fv.fixed + fv.varia + fv.discretionary ≤ 0 then 0
  else fv.discretionary / (fv.fixed + fv.varia + fv.discretionary) * 100

/-- `income = monthly_income if monthly_income else total_income`: the
override is used only when present and truthy (non-zero). -/
def chooseIncome (ts : List Txn) (monthly_income : Option ℚ) : ℚ :=
  match monthly_income with
  | none => calc_total_income ts
  | some m => if m = 0 then calc_total_income ts else m

/-- The currency and ratio fields of the metrics record returned by
`calculate_all_metrics`.  The remaining keys of the Python dict —
`expenses_by_category`, `spending_volatility` (an irrational square root,
modelled below through its square), the debt metrics, `average_transaction`
and `transaction_count` — are read by no claim and are modelled by the
standalone helper definitions they are computed from. -/
structure FinancialMetrics where
  total_income : ℚ
  total_expenses : ℚ
  net_cash_flow : ℚ
  fixed_expenses : ℚ
  variable_expenses : ℚ
  discretionary_expenses : ℚ
  savings_rate : ℚ
  expense_to_income_ratio : ℚ
  discretionary_ratio : ℚ
deriving DecidableEq

/-- `FinancialMetricsEngine.calculate_all_metrics` (the fields listed in
`FinancialMetrics`): every currency field is rounded to 2 decimal places;
`net_cash_flow` is computed from the *calculated* income even when a manual
`monthly_income` override replaces `total_income`. -/
def calculate_all_metrics (ts : List Txn) (monthly_income : Option ℚ) :
    FinancialMetrics :=
  let total_income := calc_total_income ts
  let total_expenses := calc_total_expenses ts
  let net_cash_flow := total_income - total_expenses
  let income := chooseIncome ts monthly_income
  let fv := calc_fixed_variable ts
  { total_income := round2 income
    total_expenses := round2 total_expenses
    net_cash_flow := round2 net_cash_flow
    fixed_expenses := round2 fv.fixed
    variable_expenses := round2 fv.varia
    discretionary_expenses := round2 fv.discretionary
    savings_rate := round2 (calc_savings_rate income total_expenses)
    expense_to_income_ratio :=
      round2 (if 0 < income then total_expenses / income * 100 else 0)
    discretionary_ratio := round2 (calc_discretionary_ratio fv) }

/-! ## ValidationEngine

Error messages are Python f-strings over the offending values; we model each
message as an inductive constructor carrying the values interpolated into
it, since no code path inspects the message text. -/

/-- A transaction record as seen by `validate_transactions`: each key may be
absent (`none`).  A present `amount` is numeric by typing, so the
`Invalid amount type` branch of the Python code is unrepresentable here. -/
structure VTxn where
  date : Option String
  amount : Option ℚ
  description : Option String
  category : Option String
deriving DecidableEq

/-- Errors produced by `validate_transactions` and its helpers. -/
inductive TxnError where
  | noTransactions
  | insufficientTransactions (count : ℕ)
  | missingDate (index : ℕ)
  | missingAmount (index : ℕ)
  | missingDescription (index : ℕ)
  | missingCategory (index : ℕ)
  | highDuplicates (count : ℕ)
deriving DecidableEq

/-- `ValidationEngine._validate_single_transaction` (a missing key and a
present-but-falsy value both fail the `not txn[...]` tests for date and
description). -/
def validate_single_transaction (t : VTxn) (index : ℕ) : List TxnError :=
  (if t.date = none ∨ t.date = some "" then [TxnError.missingDate index] else []) ++
  (if t.amount = none then [TxnError.missingAmount index] else []) ++
  (if t.description = none ∨ t.description = some "" then
    [TxnError.missingDescription index] else []) ++
  (if t.category = none then [TxnError.missingCategory index] else [])

/-- The duplicate-detection hash
`f"{date}_{amount}_{description[:20]}"` of
`_check_transaction_consistency`, modelled as the tuple of the interpolated
components. -/
def txnHash (t : VTxn) : Option String × Option ℚ × String :=
  (t.date, t.amount, ⟨(t.description.getD "").data.take 20⟩)

/-- `ValidationEngine._check_transaction_consistency`: counts hash
collisions against the running set and reports when more than 10% of the
transactions are potential duplicates (the large-amount scan only logs). -/
def check_transaction_consistency (ts : List VTxn) : List TxnError :=
  let dups := (ts.foldl
    (fun (acc : List (Option String × Option ℚ × String) × ℕ) t =>
      let h := txnHash t
      (if h ∈ acc.1 then acc.1 else h :: acc.1,
       if h ∈ acc.1 then acc.2 + 1 else acc.2))
    ([], 0)).2
  if (ts.length : ℚ) * (1/10) < (dups : ℚ) then [TxnError.highDuplicates dups] else []

/-- `ValidationEngine.validate_transactions`: an empty list short-circuits
with the single `No transactions found` error; otherwise the minimum-count,
per-transaction and consistency checks all run and validity is the absence
of errors. -/
def validate_transactions (ts : List VTxn) : Bool × List TxnError :=
  if ts.isEmpty then (false, [TxnError.noTransactions])
  else
    let errors :=
      (if ts.length < 5 then [TxnError.insufficientTransactions ts.length] else []) ++
      (ts.enum.map (fun p => validate_single_transaction p.2 p.1)).flatten ++
      check_transaction_consistency ts
    (errors.isEmpty, errors)

/-- A financial state as seen by `validate_financial_state`: the keys the
function reads, each possibly absent. -/
structure FinState where
  total_income : Option ℚ
  total_expenses : Option ℚ
  expenses_by_category : Option (List (String × ℚ))
  transaction_count : Option ℕ
  net_cash_flow : Option ℚ
  savings_rate : Option ℚ
  debt_to_income_ratio : Option ℚ
deriving DecidableEq

/-- Errors produced by `validate_financial_state`. -/
inductive StateError where
  | missingField (name : String)
  | incomeTooLow (income : ℚ)
  | negativeExpenses (expenses : ℚ)
  | cashFlowMismatch (stated calculated : ℚ)
  | savingsRateOutOfRange (rate : ℚ)
  | dtiTooHigh (value : ℚ)
deriving DecidableEq

/-- `ValidationEngine.validate_financial_state`, with
`MIN_INCOME = 0.01` and `MAX_DTI_RATIO = 200`. -/
def validate_financial_state (s : FinState) : Bool × List StateError :=
  let errors :=
    (if s.total_income = none then [StateError.missingField "total_income"] else []) ++
    (if s.total_expenses = none then [StateError.missingField "total_expenses"] else []) ++
    (if s.expenses_by_category = none then
      [StateError.missingField "expenses_by_category"] else []) ++
    (if s.transaction_count = none then
      [StateError.missingField "transaction_count"] else []) ++
    (if s.total_income.getD 0 < 1/100 then
      [StateError.incomeTooLow (s.total_income.getD 0)] else []) ++
    (if s.total_expenses.getD 0 < 0 then
      [StateError.negativeExpenses (s.total_expenses.getD 0)] else []) ++
    (if 0 < s.total_income.getD 0 ∧ 0 < s.total_expenses.getD 0 ∧
        1/100 < |s.net_cash_flow.getD 0 - (s.total_income.getD 0 - s.total_expenses.getD 0)|
      then [StateError.cashFlowMismatch (s.net_cash_flow.getD 0)
        (s.total_income.getD 0 - s.total_expenses.getD 0)] else []) ++
    (if ¬(-100 ≤ s.savings_rate.getD 0 ∧ s.savings_rate.getD 0 ≤ 100) then
      [StateError.savingsRateOutOfRange (s.savings_rate.getD 0)] else []) ++
    (if 200 < s.debt_to_income_ratio.getD 0 then
      [StateError.dtiTooHigh (s.debt_to_income_ratio.getD 0)] else [])
  (errors.isEmpty, errors)

/-- Python `\s`-style whitespace (the ASCII set `str.strip` removes). -/
def isSpaceC (c : Char) : Bool :=
  c == ' ' || c == '\t' || c == '\n' || c == '\r' || c == '\x0b' || c == '\x0c'

/-- Python `str.strip()` on a character list. -/
def trimList (cs : List Char) : List Char :=
  ((cs.dropWhile isSpaceC).reverse.dropWhile isSpaceC).reverse

/-- Python `str.strip()`. -/
def strTrim (s : String) : String := ⟨trimList s.data⟩

/-! ## Spending volatility (C6)

`_calculate_spending_volatility` returns `statistics.stdev` of the daily
expense totals, an irrational square root; we model its square (two
nonnegative reals agree iff their squares do, so equality claims about the
standard deviation are settled by the squares). -/

/-- `daily_expenses[date] = daily_expenses.get(date, 0) + amount`: add into
an insertion-ordered association list standing for the Python dict. -/
def dailyUpsert : List (String × ℚ) → String → ℚ → List (String × ℚ)
  | [], d, a => [(d, a)]
  | (k, v) :: rest, d, a =>
    if k = d then (k, v + a) :: rest else (k, v) :: dailyUpsert rest d a

/-- The `daily_expenses` dict built by `_calculate_spending_volatility`:
expense transactions grouped by date key, amounts summed per day. -/
def daily_expenses (ts : List Txn) : List (String × ℚ) :=
  ts.foldl (fun acc t => if isExpense t then dailyUpsert acc t.date |t.amount| else acc) []

/-- Square of `statistics.stdev` (sample standard deviation, `n - 1`
denominator) on a list of values. -/
def stdevSq (xs : List ℚ) : ℚ :=
  ((xs.map (fun x => (x - xs.sum / xs.length) ^ 2)).sum) / (xs.length - 1)

/-- Square of `_calculate_spending_volatility`: 0 when fewer than 2 daily
entries exist, otherwise the squared sample standard deviation of the daily
totals (the `try/except` around `statistics.stdev` cannot fire once
`len >= 2`). -/
def spending_volatility_sq (ts : List Txn) : ℚ :=
  let vals := (daily_expenses ts).map Prod.snd
  if vals.length < 2 then 0 else stdevSq vals

/-- Modelled from the spec: square of the *population* standard deviation
(`n` denominator) of a list of values. -/
def pstdevSq (xs : List ℚ) : ℚ :=
  ((xs.map (fun x => (x - xs.sum / xs.length) ^ 2)).sum) / xs.length

/-- Modelled from the spec: "spending_volatility = population standard
deviation of daily expense totals ...; returns 0 if fewer than 2 distinct
expense days" (its square). -/
def spec_volatility_sq (ts : List Txn) : ℚ :=
  let vals := (daily_expenses ts).map Prod.snd
  if vals.length < 2 then 0 else pstdevSq vals

/-- Insert a key into a key list if it is new (the effect of one dict
insertion on the key set). -/
def insertNew (ks : List String) (d : String) : List String :=
  if d ∈ ks then ks else ks ++ [d]

/-! ## Recurring subscriptions (C7) -/

/-- One entry of the `identify_recurring_subscriptions` result list. -/
structure Subscription where
  description : String
  amount : ℚ
  frequency : ℕ
deriving DecidableEq

/-- `description_amounts[desc].append(amount)` on the insertion-ordered
association list standing for the Python dict of lists. -/
def subUpsert : List (String × List ℚ) → String → ℚ → List (String × List ℚ)
  | [], d, a => [(d, [a])]
  | (k, v) :: rest, d, a =>
    if k = d then (k, v ++ [a]) :: rest else (k, v) :: subUpsert rest d a

/-- The `description_amounts` dict of `identify_recurring_subscriptions`:
amounts of Subscription-category transactions grouped by the strip-and-
lower-cased description when it has at least 3 characters. -/
def description_amounts (ts : List Txn) : List (String × List ℚ) :=
  ts.foldl (fun acc t =>
    let desc := lowerStr (strTrim t.description)
    if t.category ≠ "Subscriptions" ∨ desc.length < 3 then acc
    else subUpsert acc desc |t.amount|) []

/-- The descending-amount order used by
`sorted(subscriptions, key=lambda x: x['amount'], reverse=True)`. -/
def subGE (x y : Subscription) : Prop := y.amount ≤ x.amount

instance : DecidableRel subGE := fun x y =>
  (inferInstance : Decidable (y.amount ≤ x.amount))

instance : IsTotal Subscription subGE := ⟨fun a b => le_total b.amount a.amount⟩

instance : IsTrans Subscription subGE := ⟨fun _ _ _ hab hbc => le_trans hbc hab⟩

/-- `FinancialMetricsEngine.identify_recurring_subscriptions`: a group
qualifies when it has at least 2 occurrences and every amount is strictly
within $1 of the group mean; entries carry the rounded mean and the count,
sorted descending by amount (a stable insertion sort models Python's stable
`sorted`). -/
def identify_recurring_subscriptions (ts : List Txn) : List Subscription :=
  ((description_amounts ts).filterMap (fun p =>
    if 2 ≤ p.2.length then
      if p.2.all (fun a => |a - p.2.sum / p.2.length| < 1) then
        some ⟨p.1, round2 (p.2.sum / p.2.length), p.2.length⟩
      else none
    else none)).insertionSort subGE

/-! ## AnalysisService._parse_transactions (C4, C5)

The three extraction strategies are regex scans over the OCR text and
tables.  The regular expressions involved —
`\$?\s*([\d,]+\.?\d*)`, `\$?([\d,]+\.?\d*)`, `\$\s*([\d,]+\.?\d*)`,
`^([A-Za-z]+)`, `\s\x7b2,\x7d` and `\$[\d,.]+` — are implemented directly
as character scans with Python's leftmost, non-overlapping, greedy
semantics.  `datetime.now()` populates the `date` key of every produced
transaction; it is impure and read by no claim, so the transaction model
keeps only `description` and `amount`. -/

/-- A transaction as produced by the parsing strategies (minus the impure
`datetime.now()` date). -/
structure RawTxn where
  description : String
  amount : ℚ
deriving DecidableEq

/-- A pdfplumber table cell: possibly `None`.  (Cells are modelled as
strings; `str(cell)` is the identity on them.) -/
abbrev Cell := Option String

/-- The character class `[\d,]`. -/
def isAmtC (c : Char) : Bool := c.isDigit || c == ','

/-- The character class `[A-Za-z]`. -/
def isAlphaC (c : Char) : Bool :=
  ('A' ≤ c && c ≤ 'Z') || ('a' ≤ c && c ≤ 'z')

/-- Decimal digits to a number (`float` on the integer part). -/
def digitsToNat (ds : List Char) : ℕ :=
  ds.foldl (fun n c => 10 * n + (c.toNat - 48)) 0

/-- `float(group.replace(',', ''))` on a captured group of shape
`[\d,]+(\.\d*)?`: fails (Python `ValueError`) when no digit remains. -/
def groupToFloat (g : List Char) : Option ℚ :=
  let h := g.filter (fun c => c ≠ ',')
  if h.any (fun c => c.isDigit) then
    let ip := h.takeWhile (fun c => c.isDigit)
    let fp := match h.drop ip.length with
      | '.' :: r => r
      | _ => []
    some ((digitsToNat ip : ℚ) + (digitsToNat fp : ℚ) / (10 : ℚ) ^ fp.length)
  else none

/-- Greedy match of `([\d,]+\.?\d*)` at the head of the input: the captured
group and the number of characters consumed. -/
def coreGroup (cs : List Char) : Option (List Char × ℕ) :=
  let g1 := cs.takeWhile isAmtC
  if g1.isEmpty then none
  else
    match cs.drop g1.length with
    | '.' :: r2 =>
      let ds := r2.takeWhile (fun c => c.isDigit)
      some (g1 ++ '.' :: ds, g1.length + 1 + ds.length)
    | _ => some (g1, g1.length)

/-- Match of `\$?\s*([\d,]+\.?\d*)` at the head of the input (the optional
dollar and spaces can only be consumed when the group follows). -/
def matchP1At (cs : List Char) : Option (List Char) :=
  let cs1 := match cs with
    | '$' :: t => t
    | _ => cs
  (coreGroup (cs1.dropWhile isSpaceC)).map Prod.fst

/-- `re.search(r'\$?\s*([\d,]+\.?\d*)', s)`: the captured group of the
leftmost match. -/
def searchP1 : List Char → Option (List Char)
  | [] => none
  | c :: t =>
    match matchP1At (c :: t) with
    | some g => some g
    | none => searchP1 t

/-- Match of `\$?([\d,]+\.?\d*)` at the head of the input. -/
def matchP2At (cs : List Char) : Option (List Char × ℕ) :=
  match cs with
  | '$' :: t => (coreGroup t).map (fun p => (p.1, p.2 + 1))
  | _ => coreGroup cs

/-- Match of `\$\s*([\d,]+\.?\d*)` at the head of the input. -/
def matchP3At (cs : List Char) : Option (List Char × ℕ) :=
  match cs with
  | '$' :: t =>
    let sp := t.takeWhile isSpaceC
    (coreGroup (t.drop sp.length)).map (fun p => (p.1, p.2 + sp.length + 1))
  | _ => none

/-- `re.findall`: scan left to right, collecting non-overlapping matches;
after a match of length `len` the scan resumes past it (`skip` counts the
remaining characters of the current match still to pass over). -/
def findallGo (m : List Char → Option (List Char × ℕ)) :
    List Char → ℕ → List (List Char)
  | [], _ => []
  | _ :: t, skip + 1 => findallGo m t skip
  | c :: t, 0 =>
    match m (c :: t) with
    | some (g, len) => g :: findallGo m t (len - 1)
    | none => findallGo m t 0

/-- `re.findall(r'\$?([\d,]+\.?\d*)', s)`. -/
def findallP2 (cs : List Char) : List (List Char) := findallGo matchP2At cs 0

/-- `re.findall(r'\$\s*([\d,]+\.?\d*)', s)`. -/
def findallP3 (cs : List Char) : List (List Char) := findallGo matchP3At cs 0

/-- `str.splitlines()` worker (splits at `\r\n`, `\n` and `\r`; no trailing
empty line for a trailing newline). -/
def splitLinesGo : List Char → List Char → List (List Char)
  | [], cur => [cur]
  | '\r' :: '\n' :: t, cur =>
    cur :: (match t with
      | [] => []
      | _ => splitLinesGo t [])
  | '\n' :: t, cur =>
    cur :: (match t with
      | [] => []
      | _ => splitLinesGo t [])
  | '\r' :: t, cur =>
    cur :: (match t with
      | [] => []
      | _ => splitLinesGo t [])
  | c :: t, cur => splitLinesGo t (cur ++ [c])

/-- Python `text.splitlines()`. -/
def pyLines (s : String) : List (List Char) :=
  match s.data with
  | [] => []
  | cs => splitLinesGo cs []

/-- `re.split` on runs of two or more whitespace characters
(the header-splitting regex of `_parse_tabular_text`): worker, where the
flag records that the scan is inside a splitting run. -/
def splitWs2Go : List Char → List Char → Bool → List (List Char)
  | [], cur, false => [cur]
  | [], _, true => [[]]
  | c :: t, cur, false =>
    if isSpaceC c && (match t with
        | c2 :: _ => isSpaceC c2
        | [] => false) then
      cur :: splitWs2Go t [] true
    else splitWs2Go t (cur ++ [c]) false
  | c :: t, _, true =>
    if isSpaceC c then splitWs2Go t [] true
    else splitWs2Go t [c] false

/-- `re.split` on runs of two or more whitespace characters. -/
def splitWs2 (cs : List Char) : List (List Char) := splitWs2Go cs [] false

/-- Python `str.isdigit()` (nonempty, all digits). -/
def pyIsDigitStr (cs : List Char) : Bool := !cs.isEmpty && cs.all (fun c => c.isDigit)

/-- `re.sub(r'\$[\d,.]+', '', s)` worker: drop every `$` followed by a
nonempty run of digits, commas or dots (`skip` counts characters of the
current run still to drop). -/
def rmDollarGo : List Char → ℕ → List Char
  | [], _ => []
  | _ :: t, skip + 1 => rmDollarGo t skip
  | c :: t, 0 =>
    if c = '$' then
      let run := t.takeWhile (fun x => x.isDigit || x == ',' || x == '.')
      if run.isEmpty then '$' :: rmDollarGo t 0
      else rmDollarGo t run.length
    else c :: rmDollarGo t 0

/-- `re.sub(r'\$[\d,.]+', '', s)`. -/
def rmDollarRuns (cs : List Char) : List Char := rmDollarGo cs 0

/-- Case-insensitive Python `word in line` test against several words. -/
def containsAnyLower (line : List Char) (words : List String) : Bool :=
  words.any (fun w => subIn w.data (line.map lowerC))

/-- `" ".join(cells)`-style join. -/
def joinWith (sep : String) : List String → String
  | [] => ""
  | [x] => x
  | x :: xs => x ++ sep ++ joinWith sep xs

/-- `str(cell).strip().lower() if cell else ""` on a header cell. -/
def headerCell (c : Cell) : String :=
  match c with
  | none => ""
  | some s => if s.data.isEmpty then "" else lowerStr (strTrim s)

/-- `str(cell).strip() if cell else ""` on a row cell. -/
def rowCell (c : Cell) : String :=
  match c with
  | none => ""
  | some s => if s.data.isEmpty then "" else strTrim s

/-- `AnalysisService._extract_amount`: first `\$?\s*([\d,]+\.?\d*)` match in
the stripped cell, converted by `float` (None on no match or conversion
failure; an empty cell returns None up front). -/
def extract_amount (cell : String) : Option ℚ :=
  if cell.data.isEmpty then none
  else
    match searchP1 (trimList cell.data) with
    | some g => groupToFloat g
    | none => none

/-- Python `str.strip(" -")`. -/
def trimDashSpace (cs : List Char) : List Char :=
  ((cs.dropWhile (fun c => c == ' ' || c == '-')).reverse.dropWhile
    (fun c => c == ' ' || c == '-')).reverse

/-- `AnalysisService._parse_from_tables`: tables of fewer than two rows are
skipped; the first row is the header; blank rows and rows mentioning
total/month/average/header are skipped; every positive amount in a
non-label cell becomes an expense transaction described by the row label
and the header of its column. -/
def parse_from_tables (tables : List (List (List Cell))) : List RawTxn :=
  tables.foldl (fun acc table =>
    if table.length < 2 then acc
    else
      let header := (match table with
        | [] => ([] : List Cell)
        | h :: _ => h).map headerCell
      acc ++ ((table.drop 1).enum.foldl (fun acc2 ir =>
        let row := ir.2
        if row.isEmpty || row.all (fun c => (rowCell c).data.isEmpty) then acc2
        else
          let cells := row.map rowCell
          if containsAnyLower (joinWith " " cells).data
              ["total", "month", "average", "header"] then acc2
          else
            let label := match cells with
              | [] => "Row " ++ Nat.repr (ir.1 + 1)
              | l :: _ => l
            acc2 ++ (cells.drop 1).enum.filterMap (fun jc =>
              match extract_amount jc.2 with
              | some v =>
                if 0 < v then
                  let hint := header.getD (jc.1 + 1) ""
                  some ⟨(if hint.data.isEmpty then label
                    else ⟨trimDashSpace (label ++ " - " ++ hint).data⟩), -v⟩
                else none
              | none => none)) [])) []

/-- The header-line test of `_parse_tabular_text`
(`re.search(r'(housing|rent|food|bill|personal|transport|entertain|utilit|dining|grocer)', line, re.IGNORECASE)`). -/
def tabularHeaderHit (line : List Char) : Bool :=
  containsAnyLower line
    ["housing", "rent", "food", "bill", "personal", "transport", "entertain",
     "utilit", "dining", "grocer"]

/-- `AnalysisService._parse_tabular_text`: a detected header line replaces
the running category list; any other line with at least two amounts yields
one expense transaction per positive amount, labelled by the leading
alphabetic word and the category of matching index. -/
def parse_tabular_text (text : String) : List RawTxn :=
  ((pyLines text).foldl (fun (st : List String × List RawTxn) rawLine =>
    let line := trimList rawLine
    if line.isEmpty then st
    else if tabularHeaderHit line then
      (((splitWs2 line).map trimList).filterMap (fun p =>
        if !p.isEmpty && !pyIsDigitStr p then some (⟨p⟩ : String) else none),
       st.2)
    else
      let amounts := findallP2 line
      if 2 ≤ amounts.length then
        let label : String := match line.takeWhile isAlphaC with
          | [] => "Entry"
          | l => ⟨l⟩
        (st.1, st.2 ++ amounts.enum.filterMap (fun ja =>
          match groupToFloat ja.2 with
          | some v =>
            if 0 < v then
              some ⟨label ++ " - " ++
                st.1.getD ja.1 ("Category " ++ Nat.repr (ja.1 + 1)), -v⟩
            else none
          | none => none))
      else st) ([], [])).2

/-- `AnalysisService._parse_dollar_amounts`: on every non-skipped line, each
`$`-prefixed positive amount becomes an expense transaction described by
the line with the dollar amounts removed (or `Expense` when empty). -/
def parse_dollar_amounts (text : String) : List RawTxn :=
  (pyLines text).foldl (fun acc rawLine =>
    let line := trimList rawLine
    if line.isEmpty then acc
    else if containsAnyLower line ["total", "month", "category", "header", "page"] then
      acc
    else
      acc ++ (findallP3 line).filterMap (fun g =>
        match groupToFloat g with
        | some v =>
          if 0 < v then
            some ⟨(if ((trimList (rmDollarRuns line)).take 60).isEmpty then "Expense"
              else ⟨(trimList (rmDollarRuns line)).take 60⟩), -v⟩
          else none
        | none => none)) []

/-- `AnalysisService._parse_transactions`: the strict strategy cascade —
tables, then tabular text, then bare dollar amounts, then the synthetic
fallback entry. -/
def parse_transactions (text : String) (tables : List (List (List Cell))) :
    List RawTxn :=
  let t1 := if tables.isEmpty then [] else parse_from_tables tables
  if !t1.isEmpty then t1
  else
    let t2 := parse_tabular_text text
    if !t2.isEmpty then t2
    else
      let t3 := parse_dollar_amounts text
      if !t3.isEmpty then t3
      else [⟨"Monthly Expenses (from statement)", -1000⟩]

/-! # Theorems -/

theorem ratFloor_eq_floor (q : ℚ) : ratFloor q = ⌊q⌋ := Rat.floor_def.symm

/-! ## Properties of rounding -/

theorem rhe_le (x : ℚ) : (rndHalfEven x : ℚ) ≤ x + 1/2 := by
  have hf1 : (ratFloor x : ℚ) ≤ x := by
    rw [ratFloor_eq_floor]; exact_mod_cast Int.floor_le x
  have hf2 : x < (ratFloor x : ℚ) + 1 := by
    rw [ratFloor_eq_floor]; exact_mod_cast Int.lt_floor_add_one x
  unfold rndHalfEven
  split_ifs with h1 h2 h3 <;> push_cast <;> linarith

theorem le_rhe (x : ℚ) : x - 1/2 ≤ (rndHalfEven x : ℚ) := by
  have hf1 : (ratFloor x : ℚ) ≤ x := by
    rw [ratFloor_eq_floor]; exact_mod_cast Int.floor_le x
  have hf2 : x < (ratFloor x : ℚ) + 1 := by
    rw [ratFloor_eq_floor]; exact_mod_cast Int.lt_floor_add_one x
  unfold rndHalfEven
  split_ifs with h1 h2 h3 <;> push_cast <;> linarith

/-- Rounding to cents commutes with a two-term sum up to one cent. -/
theorem round2_add (a b : ℚ) : |round2 (a + b) - round2 a - round2 b| ≤ 1/100 := by
  have key : round2 (a + b) - round2 a - round2 b =
      ((rndHalfEven ((a + b) * 100) - rndHalfEven (a * 100) - rndHalfEven (b * 100) : ℤ) : ℚ) / 100 := by
    unfold round2; push_cast; ring
  have hab : (a + b) * 100 = a * 100 + b * 100 := by ring
  have h1 := rhe_le ((a + b) * 100)
  have h2 := le_rhe ((a + b) * 100)
  have h3 := rhe_le (a * 100)
  have h4 := le_rhe (a * 100)
  have h5 := rhe_le (b * 100)
  have h6 := le_rhe (b * 100)
  set d : ℤ := rndHalfEven ((a + b) * 100) - rndHalfEven (a * 100) - rndHalfEven (b * 100) with hd
  have hub : (d : ℚ) < 2 := by rw [hd]; push_cast; linarith
  have hlb : (-2 : ℚ) < d := by rw [hd]; push_cast; linarith
  have hub' : d ≤ 1 := by exact_mod_cast Int.lt_add_one_iff.mp (by exact_mod_cast hub)
  have hlb' : -1 ≤ d := by
    have : (-2 : ℤ) < d := by exact_mod_cast hlb
    omega
  rw [key, abs_div, abs_of_pos (by norm_num : (0:ℚ) < 100)]
  rw [div_le_div_iff₀ (by norm_num) (by norm_num)]
  calc |(d : ℚ)| * 100 ≤ 1 * 100 := by
        have : |(d : ℚ)| ≤ 1 := abs_le.mpr ⟨by exact_mod_cast hlb', by exact_mod_cast hub'⟩
        nlinarith [abs_nonneg (d : ℚ)]
    _ = 100 * 1 := by ring

/-- Rounding to cents commutes with a three-term sum up to two cents
(three half-cent ties can all round away from the rounded total). -/
theorem round2_three (a b c : ℚ) :
    |round2 a + round2 b + round2 c - round2 (a + b + c)| ≤ 2/100 := by
  have key : round2 a + round2 b + round2 c - round2 (a + b + c) =
      ((rndHalfEven (a * 100) + rndHalfEven (b * 100) + rndHalfEven (c * 100)
        - rndHalfEven ((a + b + c) * 100) : ℤ) : ℚ) / 100 := by
    unfold round2; push_cast; ring
  have h1 := rhe_le ((a + b + c) * 100)
  have h2 := le_rhe ((a + b + c) * 100)
  have h3 := rhe_le (a * 100)
  have h4 := le_rhe (a * 100)
  have h5 := rhe_le (b * 100)
  have h6 := le_rhe (b * 100)
  have h7 := rhe_le (c * 100)
  have h8 := le_rhe (c * 100)
  set d : ℤ := rndHalfEven (a * 100) + rndHalfEven (b * 100) + rndHalfEven (c * 100)
      - rndHalfEven ((a + b + c) * 100) with hd
  have hub : (d : ℚ) ≤ 2 := by rw [hd]; push_cast; linarith
  have hlb : (-2 : ℚ) ≤ d := by rw [hd]; push_cast; linarith
  rw [key, abs_div, abs_of_pos (by norm_num : (0:ℚ) < 100)]
  rw [div_le_div_iff₀ (by norm_num) (by norm_num)]
  have : |(d : ℚ)| ≤ 2 := abs_le.mpr ⟨by exact_mod_cast hlb, by exact_mod_cast hub⟩
  nlinarith [abs_nonneg (d : ℚ)]

/-! ## Expense breakdown (C1) -/

/-- `classify_expense_type` always lands in one of its three buckets. -/
theorem classify_cases (c : String) :
    classify_expense_type c = "Fixed" ∨ classify_expense_type c = "Discretionary" ∨
      classify_expense_type c = "Variable" := by
  unfold classify_expense_type
  split_ifs <;> simp

/-- Per-transaction form of the breakdown identity: whenever a transaction
whose category is Savings & Investments or Debt Payments is not counted as
an expense, its contribution to `_calculate_total_expenses` equals its total
contribution to the `_calculate_fixed_variable` buckets. -/
theorem expenseContrib_eq_fv (t : Txn)
    (h : t.category = "Savings & Investments" ∨ t.category = "Debt Payments" →
      isExpense t = false) :
    expenseContrib t =
      fvAmount t "Fixed" + fvAmount t "Variable" + fvAmount t "Discretionary" := by
  by_cases hInc : t.category = "Income"
  · simp [expenseContrib, fvAmount, hInc]
  · by_cases hSI : t.category = "Savings & Investments"
    · simp [expenseContrib, fvAmount, hSI, h (Or.inl hSI)]
    · by_cases hDP : t.category = "Debt Payments"
      · simp [expenseContrib, fvAmount, hDP, h (Or.inr hDP)]
      · by_cases hE : isExpense t
        · rcases classify_cases t.category with hc | hc | hc <;>
            simp [expenseContrib, fvAmount, hInc, hSI, hDP, hE, hc]
        · simp [expenseContrib, fvAmount, hE]

/-- The unrounded breakdown identity, summed over a transaction list. -/
theorem calc_total_expenses_eq_fv (ts : List Txn)
    (h : ∀ t ∈ ts, t.category = "Savings & Investments" ∨ t.category = "Debt Payments" →
      isExpense t = false) :
    calc_total_expenses ts =
      (calc_fixed_variable ts).fixed + (calc_fixed_variable ts).varia +
        (calc_fixed_variable ts).discretionary := by
  induction ts with
  | nil => simp [calc_total_expenses, calc_fixed_variable]
  | cons t ts ih =>
    have hp := expenseContrib_eq_fv t (h t (List.mem_cons_self t ts))
    have ih' := ih (fun u hu => h u (List.mem_cons_of_mem t hu))
    simp only [calc_total_expenses, calc_fixed_variable, List.map_cons,
      List.sum_cons] at *
    linarith

/-- C1 as stated fails on the code in two independent ways, witnessed here:
a Debt Payments debit is excluded from `total_expenses` but classified
`Fixed` by the breakdown (first conjunct), and three half-cent-tie amounts
can round the three buckets a full two cents away from the rounded total
(second conjunct). -/
theorem c1_counterexample :
    ¬ (|(calculate_all_metrics [⟨"2024-01-01", "loan payment", -100, "debit", "Debt Payments"⟩]
          none).total_expenses -
        ((calculate_all_metrics [⟨"2024-01-01", "loan payment", -100, "debit", "Debt Payments"⟩]
          none).fixed_expenses +
         (calculate_all_metrics [⟨"2024-01-01", "loan payment", -100, "debit", "Debt Payments"⟩]
          none).variable_expenses +
         (calculate_all_metrics [⟨"2024-01-01", "loan payment", -100, "debit", "Debt Payments"⟩]
          none).discretionary_expenses)| ≤ 1/100) ∧
    ¬ (|(calculate_all_metrics [⟨"d1", "a", -(1/8), "debit", "Housing"⟩,
          ⟨"d2", "b", -(1/8), "debit", "Other"⟩,
          ⟨"d3", "c", -(1/8), "debit", "Entertainment"⟩] none).total_expenses -
        ((calculate_all_metrics [⟨"d1", "a", -(1/8), "debit", "Housing"⟩,
          ⟨"d2", "b", -(1/8), "debit", "Other"⟩,
          ⟨"d3", "c", -(1/8), "debit", "Entertainment"⟩] none).fixed_expenses +
         (calculate_all_metrics [⟨"d1", "a", -(1/8), "debit", "Housing"⟩,
          ⟨"d2", "b", -(1/8), "debit", "Other"⟩,
          ⟨"d3", "c", -(1/8), "debit", "Entertainment"⟩] none).variable_expenses +
         (calculate_all_metrics [⟨"d1", "a", -(1/8), "debit", "Housing"⟩,
          ⟨"d2", "b", -(1/8), "debit", "Other"⟩,
          ⟨"d3", "c", -(1/8), "debit", "Entertainment"⟩] none).discretionary_expenses)|
        ≤ 1/100) := by
  constructor <;> decide

/-- C1 (amended): for every transaction list in which no Savings &
Investments or Debt Payments transaction is counted as an expense, the
unrounded total of `_calculate_total_expenses` equals the sum of the three
`_calculate_fixed_variable` buckets exactly, and the rounded record fields
of `calculate_all_metrics` satisfy the same identity within 0.02 (three
independent roundings can move the sum up to two cents from the rounded
total). -/
theorem c1_expense_breakdown (ts : List Txn) (m : Option ℚ)
    (h : ∀ t ∈ ts, t.category = "Savings & Investments" ∨ t.category = "Debt Payments" →
      isExpense t = false) :
    calc_total_expenses ts =
      (calc_fixed_variable ts).fixed + (calc_fixed_variable ts).varia +
        (calc_fixed_variable ts).discretionary ∧
    |(calculate_all_metrics ts m).total_expenses -
      ((calculate_all_metrics ts m).fixed_expenses +
       (calculate_all_metrics ts m).variable_expenses +
       (calculate_all_metrics ts m).discretionary_expenses)| ≤ 2/100 := by
  have hx := calc_total_expenses_eq_fv ts h
  refine ⟨hx, ?_⟩
  have h3 := round2_three (calc_fixed_variable ts).fixed (calc_fixed_variable ts).varia
    (calc_fixed_variable ts).discretionary
  simp only [calculate_all_metrics]
  rw [hx, abs_sub_comm]
  exact h3

/-- Witness for the amended C1 at a concrete input. -/
theorem c1_expense_breakdown_witness :
    (∀ t ∈ [(⟨"2024-01-03", "Rent", -1200, "debit", "Housing"⟩ : Txn),
         ⟨"2024-01-04", "Salary", 3000, "credit", "Income"⟩],
       t.category = "Savings & Investments" ∨ t.category = "Debt Payments" →
         isExpense t = false) ∧
    calc_total_expenses [(⟨"2024-01-03", "Rent", -1200, "debit", "Housing"⟩ : Txn),
        ⟨"2024-01-04", "Salary", 3000, "credit", "Income"⟩] =
      (calc_fixed_variable [(⟨"2024-01-03", "Rent", -1200, "debit", "Housing"⟩ : Txn),
        ⟨"2024-01-04", "Salary", 3000, "credit", "Income"⟩]).fixed +
      (calc_fixed_variable [(⟨"2024-01-03", "Rent", -1200, "debit", "Housing"⟩ : Txn),
        ⟨"2024-01-04", "Salary", 3000, "credit", "Income"⟩]).varia +
      (calc_fixed_variable [(⟨"2024-01-03", "Rent", -1200, "debit", "Housing"⟩ : Txn),
        ⟨"2024-01-04", "Salary", 3000, "credit", "Income"⟩]).discretionary ∧
    |(calculate_all_metrics [(⟨"2024-01-03", "Rent", -1200, "debit", "Housing"⟩ : Txn),
        ⟨"2024-01-04", "Salary", 3000, "credit", "Income"⟩] none).total_expenses -
      ((calculate_all_metrics [(⟨"2024-01-03", "Rent", -1200, "debit", "Housing"⟩ : Txn),
        ⟨"2024-01-04", "Salary", 3000, "credit", "Income"⟩] none).fixed_expenses +
       (calculate_all_metrics [(⟨"2024-01-03", "Rent", -1200, "debit", "Housing"⟩ : Txn),
        ⟨"2024-01-04", "Salary", 3000, "credit", "Income"⟩] none).variable_expenses +
       (calculate_all_metrics [(⟨"2024-01-03", "Rent", -1200, "debit", "Housing"⟩ : Txn),
        ⟨"2024-01-04", "Salary", 3000, "credit", "Income"⟩] none).discretionary_expenses)|
      ≤ 2/100 :=
  ⟨by decide, (c1_expense_breakdown _ none (by decide)).1,
    (c1_expense_breakdown _ none (by decide)).2⟩

/-! ## Net cash flow (C3) -/

/-- C3 as stated fails when a manual monthly-income override is supplied:
the reported `total_income` is the override, while `net_cash_flow` is
computed from the income calculated from the transactions. -/
theorem c3_counterexample :
    ¬ (|(calculate_all_metrics [⟨"2024-01-01", "Rent", -1200, "debit", "Housing"⟩]
          (some 5000)).net_cash_flow -
        ((calculate_all_metrics [⟨"2024-01-01", "Rent", -1200, "debit", "Housing"⟩]
          (some 5000)).total_income -
         (calculate_all_metrics [⟨"2024-01-01", "Rent", -1200, "debit", "Housing"⟩]
          (some 5000)).total_expenses)| ≤ 1/100) := by
  decide

/-- C3 (amended): with no monthly-income override the reported record
satisfies `net_cash_flow == total_income - total_expenses` within 0.01. -/
theorem c3_net_cash_flow (ts : List Txn) :
    |(calculate_all_metrics ts none).net_cash_flow -
      ((calculate_all_metrics ts none).total_income -
       (calculate_all_metrics ts none).total_expenses)| ≤ 1/100 := by
  simp only [calculate_all_metrics, chooseIncome]
  have h := round2_add (calc_total_income ts - calc_total_expenses ts) (calc_total_expenses ts)
  have hs : calc_total_income ts - calc_total_expenses ts + calc_total_expenses ts =
      calc_total_income ts := by ring
  rw [hs] at h
  calc |round2 (calc_total_income ts - calc_total_expenses ts) -
        (round2 (calc_total_income ts) - round2 (calc_total_expenses ts))| =
      |round2 (calc_total_income ts) - round2 (calc_total_income ts - calc_total_expenses ts) -
        round2 (calc_total_expenses ts)| := by
        rw [abs_sub_comm]; ring_nf
    _ ≤ 1/100 := h

/-! ## Categorization (C2) -/

/-- C2 as stated fails on its Shell example: the keyword `gas` appears in
the Utilities keyword list, and Utilities precedes Transportation in the
table, so a debit described `Shell Gas Station` is categorized `Utilities`,
not `Transportation`. -/
theorem c2_counterexample :
    categorize_transaction ⟨"2024-01-05", "Shell Gas Station", -40, "debit", ""⟩ =
      "Utilities" ∧
    categorize_transaction ⟨"2024-01-05", "Shell Gas Station", -40, "debit", ""⟩ ≠
      "Transportation" := by
  constructor <;> decide

/-- C2 (amended): categorization is a pure deterministic function of the
transaction (two calls agree), `Whole Foods Market` (debit) is
`Food & Dining`, `Shell Gas Station` (debit) is `Utilities` (the `gas`
keyword of Utilities wins before Transportation is tried), `Salary`
(positive credit) is `Income`, and an unrecognized debit description is
`Other`. -/
theorem c2_categorization (t : Txn) :
    categorize_transaction t = categorize_transaction t ∧
    categorize_transaction ⟨"2024-01-05", "Whole Foods Market", -50, "debit", ""⟩ =
      "Food & Dining" ∧
    categorize_transaction ⟨"2024-01-05", "Shell Gas Station", -40, "debit", ""⟩ =
      "Utilities" ∧
    categorize_transaction ⟨"2024-01-05", "Salary", 2000, "credit", ""⟩ = "Income" ∧
    categorize_transaction ⟨"2024-01-05", "Xqzzv Llc", -10, "debit", ""⟩ = "Other" :=
  ⟨rfl, by decide, by decide, by decide, by decide⟩

/-! ## Expense-type classification (C9) -/

/-- C9: `classify_expense_type` is total over arbitrary category strings —
it always returns one of `Fixed`, `Discretionary`, `Variable`, and every
category outside the fixed and discretionary sets (including `Other`,
`Income` and `Savings & Investments`) is classified `Variable`. -/
theorem c9_classify_expense_type_total :
    (∀ c : String, classify_expense_type c = "Fixed" ∨
      classify_expense_type c = "Discretionary" ∨ classify_expense_type c = "Variable") ∧
    (∀ c : String, c ∉ fixed_categories → c ∉ discretionary_categories →
      classify_expense_type c = "Variable") ∧
    classify_expense_type "Other" = "Variable" ∧
    classify_expense_type "Income" = "Variable" ∧
    classify_expense_type "Savings & Investments" = "Variable" := by
  refine ⟨classify_cases, fun c h1 h2 => ?_, by decide, by decide, by decide⟩
  simp [classify_expense_type, h1, h2]

/-- Witness for C9 at a concrete unknown category. -/
theorem c9_classify_expense_type_witness :
    "Zebra Rentals" ∉ fixed_categories ∧ "Zebra Rentals" ∉ discretionary_categories ∧
    classify_expense_type "Zebra Rentals" = "Variable" :=
  ⟨by decide, by decide,
    c9_classify_expense_type_total.2.1 "Zebra Rentals" (by decide) (by decide)⟩

/-! ## Cash-flow mismatch detection (C8) -/

/-- C8: on any state with positive income and expenses whose stated
`net_cash_flow` is more than 0.01 away from `income - expenses`,
`validate_financial_state` reports `is_valid = False` and includes the
cash-flow mismatch error (the embedding is a pure function, so the state is
not mutated and no exception is raised). -/
theorem c8_cash_flow_mismatch (s : FinState)
    (hi : 0 < s.total_income.getD 0) (he : 0 < s.total_expenses.getD 0)
    (hm : 1/100 < |s.net_cash_flow.getD 0 -
      (s.total_income.getD 0 - s.total_expenses.getD 0)|) :
    (validate_financial_state s).1 = false ∧
    StateError.cashFlowMismatch (s.net_cash_flow.getD 0)
      (s.total_income.getD 0 - s.total_expenses.getD 0) ∈
        (validate_financial_state s).2 := by
  have hc : 0 < s.total_income.getD 0 ∧ 0 < s.total_expenses.getD 0 ∧
      1/100 < |s.net_cash_flow.getD 0 -
        (s.total_income.getD 0 - s.total_expenses.getD 0)| := ⟨hi, he, hm⟩
  have hmem : StateError.cashFlowMismatch (s.net_cash_flow.getD 0)
      (s.total_income.getD 0 - s.total_expenses.getD 0) ∈
        (validate_financial_state s).2 := by
    simp only [validate_financial_state]
    rw [if_pos hc]
    simp [List.mem_append]
  refine ⟨?_, hmem⟩
  have hne : (validate_financial_state s).2 ≠ [] := List.ne_nil_of_mem hmem
  simp only [validate_financial_state] at hne ⊢
  simpa [List.isEmpty_iff] using hne

/-- Witness for C8: a state whose stated cash flow is off by $50. -/
theorem c8_cash_flow_mismatch_witness :
    ((0:ℚ) < (some (5000:ℚ)).getD 0) ∧
    (validate_financial_state ⟨some 5000, some 3000, some [], some 10,
        some 1950, some 40, some 0⟩).1 = false ∧
    StateError.cashFlowMismatch 1950 2000 ∈
      (validate_financial_state ⟨some 5000, some 3000, some [], some 10,
        some 1950, some 40, some 0⟩).2 := by
  refine ⟨by decide, ?_⟩
  have h := c8_cash_flow_mismatch
    ⟨some 5000, some 3000, some [], some 10, some 1950, some 40, some 0⟩
    (by decide) (by decide) (by decide)
  simpa using h

/-! ## Empty transaction list (C10) -/

/-- C10: `validate_transactions` on the empty list short-circuits, returning
invalid with exactly the single `No transactions found` error — the
minimum-count, per-transaction and duplicate checks contribute nothing. -/
theorem c10_validate_transactions_empty :
    validate_transactions [] = (false, [TxnError.noTransactions]) := by
  decide

theorem dailyUpsert_keys (acc : List (String × ℚ)) (d : String) (a : ℚ) :
    (dailyUpsert acc d a).map Prod.fst = insertNew (acc.map Prod.fst) d := by
  induction acc with
  | nil => simp [dailyUpsert, insertNew]
  | cons p rest ih =>
    obtain ⟨k, v⟩ := p
    by_cases hk : k = d
    · simp [dailyUpsert, insertNew, hk]
    · simp only [dailyUpsert, if_neg hk, List.map_cons, ih, insertNew]
      by_cases hd : d ∈ rest.map Prod.fst
      · simp [hd, hk, Ne.symm hk]
      · simp [hd, hk, Ne.symm hk]

theorem daily_expenses_keys_aux (ts : List Txn) (acc : List (String × ℚ)) :
    ((ts.foldl (fun acc t =>
        if isExpense t then dailyUpsert acc t.date |t.amount| else acc) acc).map
      Prod.fst) =
    ((ts.filter (fun t => isExpense t)).map Txn.date).foldl insertNew
      (acc.map Prod.fst) := by
  induction ts generalizing acc with
  | nil => simp
  | cons t ts ih =>
    by_cases hE : isExpense t
    · simp only [List.foldl_cons, hE, if_true, List.filter_cons_of_pos hE,
        List.map_cons, ih, dailyUpsert_keys]
    · simp only [List.foldl_cons, hE, if_false, List.filter_cons_of_neg hE, ih,
        Bool.false_eq_true]

theorem insertNew_toFinset (ks : List String) (d : String) :
    (insertNew ks d).toFinset = insert d ks.toFinset := by
  unfold insertNew
  by_cases hd : d ∈ ks
  · simp [hd, Finset.insert_eq_self.mpr (List.mem_toFinset.mpr hd)]
  · simp [hd, List.toFinset_append]
    exact Finset.union_comm _ _

theorem insertNew_nodup (ks : List String) (d : String) (h : ks.Nodup) :
    (insertNew ks d).Nodup := by
  unfold insertNew
  by_cases hd : d ∈ ks
  · simpa [hd]
  · simp only [hd, if_false]
    exact List.Nodup.append h (List.nodup_singleton d) (by simpa using hd)

theorem foldl_insertNew_toFinset (ds : List String) (ks : List String) :
    (ds.foldl insertNew ks).toFinset = ks.toFinset ∪ ds.toFinset := by
  induction ds generalizing ks with
  | nil => simp
  | cons d ds ih =>
    simp only [List.foldl_cons, ih, insertNew_toFinset, List.toFinset_cons]
    ext x
    simp [or_assoc, or_left_comm, or_comm]

theorem foldl_insertNew_nodup (ds : List String) (ks : List String) (h : ks.Nodup) :
    (ds.foldl insertNew ks).Nodup := by
  induction ds generalizing ks with
  | nil => simpa
  | cons d ds ih => exact ih _ (insertNew_nodup ks d h)

/-- The dict of `_calculate_spending_volatility` has one entry per distinct
expense date. -/
theorem daily_expenses_length (ts : List Txn) :
    (daily_expenses ts).length =
      ((ts.filter (fun t => isExpense t)).map Txn.date).toFinset.card := by
  have hkeys := daily_expenses_keys_aux ts []
  have hlen : (daily_expenses ts).length = ((daily_expenses ts).map Prod.fst).length :=
    (List.length_map _ _).symm
  rw [hlen, daily_expenses, hkeys]
  simp only [List.map_nil]
  have hnd := foldl_insertNew_nodup
    ((ts.filter (fun t => isExpense t)).map Txn.date) [] (List.nodup_nil)
  rw [← List.toFinset_card_of_nodup hnd, foldl_insertNew_toFinset]
  simp

/-- Expanding a sum of squared deviations about an arbitrary center. -/
theorem sum_sq_dev (xs : List ℚ) (c : ℚ) :
    (xs.map (fun x => (x - c) ^ 2)).sum =
      (xs.map (fun x => x ^ 2)).sum - 2 * c * xs.sum + xs.length * c ^ 2 := by
  induction xs with
  | nil => simp
  | cons x xs ih =>
    simp only [List.map_cons, List.sum_cons, ih, List.length_cons]
    push_cast
    ring

/-- C6 as stated is false: the code uses `statistics.stdev`, the *sample*
standard deviation, not the population standard deviation.  On two expense
days with totals 10 and 20 the population variance is 25 while the code's
squared volatility is 50. -/
theorem c6_counterexample :
    spending_volatility_sq
        [⟨"2024-01-01", "a", -10, "debit", "Other"⟩,
         ⟨"2024-01-02", "b", -20, "debit", "Other"⟩] = 50 ∧
    spec_volatility_sq
        [⟨"2024-01-01", "a", -10, "debit", "Other"⟩,
         ⟨"2024-01-02", "b", -20, "debit", "Other"⟩] = 25 ∧
    spending_volatility_sq
        [⟨"2024-01-01", "a", -10, "debit", "Other"⟩,
         ⟨"2024-01-02", "b", -20, "debit", "Other"⟩] ≠
      spec_volatility_sq
        [⟨"2024-01-01", "a", -10, "debit", "Other"⟩,
         ⟨"2024-01-02", "b", -20, "debit", "Other"⟩] := by
  refine ⟨by decide, by decide, by decide⟩

/-- C6 (amended): `spending_volatility` is the *sample* standard deviation
(`statistics.stdev`, `n - 1` denominator) of the daily expense totals — its
square satisfies the closed-form sample-variance identity — and it is 0.0
exactly when there are fewer than 2 distinct expense dates (the dict has
one entry per distinct date of an expense transaction). -/
theorem c6_spending_volatility (ts : List Txn) :
    (daily_expenses ts).length =
      ((ts.filter (fun t => isExpense t)).map Txn.date).toFinset.card ∧
    spending_volatility_sq ts =
      (if ((ts.filter (fun t => isExpense t)).map Txn.date).toFinset.card < 2 then 0
       else (((daily_expenses ts).map Prod.snd).length *
              (((daily_expenses ts).map Prod.snd).map (fun x => x ^ 2)).sum -
             ((daily_expenses ts).map Prod.snd).sum ^ 2) /
            (((daily_expenses ts).map Prod.snd).length *
             (((daily_expenses ts).map Prod.snd).length - 1))) := by
  refine ⟨daily_expenses_length ts, ?_⟩
  set xs := (daily_expenses ts).map Prod.snd with hxs
  have hlen : xs.length = (daily_expenses ts).length := by
    rw [hxs, List.length_map]
  rw [spending_volatility_sq, ← hxs, ← daily_expenses_length ts, ← hlen]
  by_cases h2 : xs.length < 2
  · simp [h2]
  · have hn : (2 : ℚ) ≤ (xs.length : ℚ) := by exact_mod_cast Nat.not_lt.mp h2
    have hne : (xs.length : ℚ) ≠ 0 := by linarith
    have hne1 : (xs.length : ℚ) - 1 ≠ 0 := by
      intro hc
      have : (xs.length : ℚ) = 1 := by linarith
      linarith
    simp only [h2, if_false, stdevSq, sum_sq_dev xs (xs.sum / xs.length)]
    field_simp
    ring

/-- C7 as stated ("within $1.00" read inclusively) is false on the code: a
group of two charges 10.00 and 12.00 has every amount within exactly $1.00
of its mean 11.00, yet the strict `< 1.0` test rejects it and nothing is
reported. -/
theorem c7_counterexample :
    description_amounts
        [⟨"2024-01-01", "BoxSub", -10, "debit", "Subscriptions"⟩,
         ⟨"2024-02-01", "BoxSub", -12, "debit", "Subscriptions"⟩] =
      [("boxsub", [10, 12])] ∧
    (∀ a ∈ [(10 : ℚ), 12], |a - (10 + 12) / 2| ≤ 1) ∧
    identify_recurring_subscriptions
        [⟨"2024-01-01", "BoxSub", -10, "debit", "Subscriptions"⟩,
         ⟨"2024-02-01", "BoxSub", -12, "debit", "Subscriptions"⟩] = [] := by
  refine ⟨by decide, by decide, by decide⟩

/-- C7 (amended): an entry is reported iff its description group (strip-
and-lower-cased, length at least 3, Subscriptions category) has at least 2
occurrences and every amount lies *strictly* within $1.00 of the group
mean; entries carry the rounded mean and the count, the result is sorted
descending by amount, and three $15.99 Netflix charges qualify with
frequency 3 while a group with a $25.99 outlier is rejected. -/
theorem c7_recurring_subscriptions (ts : List Txn) :
    (∀ e : Subscription, e ∈ identify_recurring_subscriptions ts ↔
      ∃ p ∈ description_amounts ts, 2 ≤ p.2.length ∧
        (∀ a ∈ p.2, |a - p.2.sum / p.2.length| < 1) ∧
        e = ⟨p.1, round2 (p.2.sum / p.2.length), p.2.length⟩) ∧
    (identify_recurring_subscriptions ts).Sorted subGE ∧
    identify_recurring_subscriptions
        [⟨"2024-01-05", "Netflix", -(1599/100), "debit", "Subscriptions"⟩,
         ⟨"2024-02-05", "Netflix", -(1599/100), "debit", "Subscriptions"⟩,
         ⟨"2024-03-05", "Netflix", -(1599/100), "debit", "Subscriptions"⟩,
         ⟨"2024-01-09", "Hulu", -(899/100), "debit", "Subscriptions"⟩,
         ⟨"2024-02-09", "Hulu", -(2599/100), "debit", "Subscriptions"⟩] =
      [⟨"netflix", 1599/100, 3⟩] := by
  refine ⟨fun e => ?_, List.sorted_insertionSort subGE _, by decide⟩
  rw [identify_recurring_subscriptions,
    (List.perm_insertionSort subGE _).mem_iff, List.mem_filterMap]
  constructor
  · rintro ⟨p, hp, hfp⟩
    split_ifs at hfp with h1 h2
    exact ⟨p, hp, h1, by simpa [List.all_eq_true] using h2,
      (Option.some.inj hfp).symm⟩
  · rintro ⟨p, hp, h1, h2, he⟩
    refine ⟨p, hp, ?_⟩
    rw [if_pos h1, if_pos (by simpa [List.all_eq_true] using h2), he]

theorem isEmpty_false_of_ne_nil {α : Type} {l : List α} (h : l ≠ []) :
    l.isEmpty = false := by
  cases l with
  | nil => exact absurd rfl h
  | cons a t => rfl

/-- C4: the cascade is strict, with no merging across strategies — a
non-empty table-strategy result is returned as-is, and a non-empty
tabular-text result preempts the dollar-amount fallback. -/
theorem c4_cascade (text : String) (tables : List (List (List Cell))) :
    (parse_from_tables tables ≠ [] →
      parse_transactions text tables = parse_from_tables tables) ∧
    (parse_from_tables tables = [] → parse_tabular_text text ≠ [] →
      parse_transactions text tables = parse_tabular_text text) := by
  constructor
  · intro h1
    rcases hpf : parse_from_tables tables with _ | ⟨x, xs⟩
    · exact absurd hpf h1
    · rcases htb : tables with _ | ⟨tb, tbs⟩
      · subst htb
        simp [parse_from_tables] at hpf
      · subst htb
        simp [parse_transactions, hpf]
  · intro h1 h2
    rcases hpt : parse_tabular_text text with _ | ⟨x, xs⟩
    · exact absurd hpt h2
    · rcases htb : tables with _ | ⟨tb, tbs⟩
      · subst htb
        simp [parse_transactions, hpt]
      · subst htb
        simp [parse_transactions, hpt, h1]

/-- Witness for C4: a table with one parseable amount preempts a text that
the tabular strategy would also parse, and with no tables that text is
parsed by the tabular strategy (both inputs produce non-empty results). -/
theorem c4_cascade_witness :
    parse_transactions "Jan 800.00 210.00"
        [[[some "Item", some "Amount"], [some "Rent", some "$1200.00"]]] =
      parse_from_tables
        [[[some "Item", some "Amount"], [some "Rent", some "$1200.00"]]] ∧
    parse_transactions "Jan 800.00 210.00" [] =
      parse_tabular_text "Jan 800.00 210.00" :=
  ⟨(c4_cascade _ _).1 (by decide), (c4_cascade _ _).2 (by decide) (by decide)⟩

/-- C5: the extractor never returns an empty list, and when all three
strategies yield nothing it returns exactly the synthetic sentinel
transaction. -/
theorem c5_fallback (text : String) (tables : List (List (List Cell))) :
    parse_transactions text tables ≠ [] ∧
    (parse_from_tables tables = [] → parse_tabular_text text = [] →
      parse_dollar_amounts text = [] →
      parse_transactions text tables =
        [⟨"Monthly Expenses (from statement)", -1000⟩]) := by
  constructor
  · rcases h1 : (if tables.isEmpty then [] else parse_from_tables tables) with _ | ⟨x, xs⟩ <;>
      rcases h2 : parse_tabular_text text with _ | ⟨y, ys⟩ <;>
        rcases h3 : parse_dollar_amounts text with _ | ⟨z, zs⟩ <;>
          (unfold parse_transactions; simp only [h1, h2, h3]; simp)
  · intro e1 e2 e3
    have h1 : (if tables.isEmpty then [] else parse_from_tables tables) = [] := by
      split <;> simp [e1]
    unfold parse_transactions
    simp only [h1, e2, e3]
    simp

/-- Witness for C5: text with no numeric tokens and no tables produces
exactly the sentinel. -/
theorem c5_fallback_witness :
    parse_transactions "hello world" [] ≠ [] ∧
    parse_transactions "hello world" [] =
      [⟨"Monthly Expenses (from statement)", -1000⟩] :=
  ⟨(c5_fallback "hello world" []).1,
   (c5_fallback "hello world" []).2 (by decide) (by decide) (by decide)⟩
